import Mathlib

/-!
Verification of the file-classification primitive `IsFile` of the
`libpsl-native` fragment, against its specification.

The fragment under `src/` contains the test suite `test-isfile.cpp` (and an
unrelated plugin-host header); the implementation `isfile.cpp` and the
headers defining the numeric error constants are not present, so the
predicate, its error translation and the constant values are modelled from
the specification and checked against the behaviours the test suite pins
down.
-/

/-- The type of a filesystem entry as reported by an OS metadata query. -/
inductive FileType
  | regular
  | directory
  | symlink
  | device
  | fifo
  | socket
  deriving DecidableEq

/-- An OS-reported failure of a metadata query.  `otherRaw n` stands for any
platform failure outside the named kinds, carrying its raw platform error
number `n`. -/
inductive OSError
  | notFound
  | permissionDenied
  | ioError
  | nameTooLong
  | otherRaw (n : Nat)
  deriving DecidableEq

/-- Outcome of an OS metadata query on one path. -/
inductive StatOutcome
  | ok (t : FileType)
  | err (e : OSError)
  deriving DecidableEq

/-- A filesystem model: what the OS metadata query answers for each path. -/
def FS : Type := String → StatOutcome

/-- Modelled from the spec: the Windows-convention code for a missing file;
the header defining `ERROR_FILE_NOT_FOUND` is not in the fragment, the spec
says the codes follow the non-POSIX (Windows) numbering convention. -/
def ERROR_FILE_NOT_FOUND : Nat := 2

/-- Modelled from the spec: the Windows-convention code for an invalid
argument; the header defining `ERROR_INVALID_PARAMETER` is not in the
fragment. -/
def ERROR_INVALID_PARAMETER : Nat := 87

/-- Modelled from the spec: a documented extension of the stable code family
covering permission failures (Windows convention). -/
def ERROR_ACCESS_DENIED : Nat := 5

/-- Modelled from the spec: a documented extension of the stable code family
covering every remaining OS failure kind (Windows convention). -/
def ERROR_GEN_FAILURE : Nat := 31

/-- The POSIX errno value for a missing file (Linux). -/
def ENOENT : Nat := 2

/-- The POSIX errno value for an invalid argument (Linux). -/
def EINVAL : Nat := 22

/-- The closed, stable family of error codes callers may branch on. -/
def stableCodeFamily : List Nat :=
  [ERROR_FILE_NOT_FOUND, ERROR_INVALID_PARAMETER,
   ERROR_ACCESS_DENIED, ERROR_GEN_FAILURE]

/-- Modelled from the spec: the error translation of `isfile.cpp` (missing
from the fragment): a not-found failure becomes `ERROR_FILE_NOT_FOUND`, and
every other OS failure is mapped into the stable code family; a raw platform
error number is never passed through. -/
def mapOSError : OSError → Nat
  | .notFound => ERROR_FILE_NOT_FOUND
  | .permissionDenied => ERROR_ACCESS_DENIED
  | .ioError => ERROR_GEN_FAILURE
  | .nameTooLong => ERROR_GEN_FAILURE
  | .otherRaw _ => ERROR_GEN_FAILURE

/-- Modelled from the spec: one call of the `IsFile` predicate of
`isfile.cpp` (missing from the fragment), before its effect on the LastError
cell is applied.  A null path fails immediately with
`ERROR_INVALID_PARAMETER` and no metadata query; otherwise the metadata
query runs, a successful query classifies the path as a file whatever the
reported entry type (the documented quirk), and a failing query yields
`false` with the translated code.  The second component is `some code` when
this call sets LastError and `none` when it sets no error (success does not
clear the cell). -/
def IsFileCall (fs : FS) : Option String → Bool × Option Nat
  | none => (false, some ERROR_INVALID_PARAMETER)
  | some p =>
    match fs p with
    | .ok _ => (true, none)
    | .err e => (false, some (mapOSError e))

/-- The state visible across calls: the filesystem and the process/
thread-local LastError cell (the C `errno`).  The spec records no other
persistent state. -/
structure World where
  fs : FS
  lastError : Nat

/-- Modelled from the spec: a full `IsFile` call as a step on the visible
state: the filesystem is read, never written; LastError is overwritten
exactly when the call fails, and left unchanged on success. -/
def IsFileW (p : Option String) (w : World) : Bool × World :=
  match IsFileCall w.fs p with
  | (b, none) => (b, w)
  | (b, some c) => (b, ⟨w.fs, c⟩)

/-- The filesystem of the test environment of `test-isfile.cpp`: the root is
a directory, `/bin/ls` is a regular file, and every other path -- including
`SomeMadeUpFileNameThatDoesNotExist` -- has no entry. -/
def testFS : FS := fun p =>
  if p = "/" then .ok .directory
  else if p = "/bin/ls" then .ok .regular
  else .err .notFound

/-- A filesystem on which every metadata query is denied, exercising the
error-translation path for a failure kind other than not-found. -/
def deniedFS : FS := fun _ => .err .permissionDenied

/-- C1: whenever the OS metadata query on a path succeeds, `IsFile` returns
`true` -- whatever the reported entry type, so directories, the root
included, are classified as files, as are regular files such as
`/bin/ls`. -/
theorem isFile_ok_true (fs : FS) (p : String) (t : FileType) (e : Nat)
    (h : fs p = .ok t) :
    (IsFileW (some p) ⟨fs, e⟩).1 = true := by
  simp [IsFileW, IsFileCall, h]

/-- C1 witness: in the test filesystem the root is a directory and `/bin/ls`
is a regular file; `IsFile` classifies both as files. -/
theorem isFile_ok_true_witness :
    (testFS "/" = .ok .directory ∧
      (IsFileW (some "/") ⟨testFS, 0⟩).1 = true) ∧
    (testFS "/bin/ls" = .ok .regular ∧
      (IsFileW (some "/bin/ls") ⟨testFS, 0⟩).1 = true) :=
  ⟨⟨by decide, isFile_ok_true testFS "/" .directory 0 (by decide)⟩,
   ⟨by decide, isFile_ok_true testFS "/bin/ls" .regular 0 (by decide)⟩⟩

/-- C2: a null path fails immediately: the call returns `false` with
LastError set to `ERROR_INVALID_PARAMETER`, and the outcome is independent
of the filesystem and of the previous LastError value -- no metadata query
is performed. -/
theorem isFile_null (fs fs2 : FS) (e e2 : Nat) :
    IsFileW none ⟨fs, e⟩ = (false, ⟨fs, ERROR_INVALID_PARAMETER⟩) ∧
    (IsFileW none ⟨fs, e⟩).1 = (IsFileW none ⟨fs2, e2⟩).1 ∧
    (IsFileW none ⟨fs, e⟩).2.lastError
      = (IsFileW none ⟨fs2, e2⟩).2.lastError := by
  refine ⟨?_, ?_, ?_⟩ <;> simp [IsFileW, IsFileCall]

/-- C3: when the metadata query fails with not-found, `IsFile` returns
`false` and sets LastError to `ERROR_FILE_NOT_FOUND`. -/
theorem isFile_notFound (fs : FS) (p : String) (e : Nat)
    (h : fs p = .err .notFound) :
    IsFileW (some p) ⟨fs, e⟩ = (false, ⟨fs, ERROR_FILE_NOT_FOUND⟩) := by
  simp [IsFileW, IsFileCall, h, mapOSError]

/-- C3 witness: the made-up name of the test suite has no entry in the test
filesystem, and `IsFile` answers `false` with `ERROR_FILE_NOT_FOUND`. -/
theorem isFile_notFound_witness :
    testFS "SomeMadeUpFileNameThatDoesNotExist" = .err .notFound ∧
    IsFileW (some "SomeMadeUpFileNameThatDoesNotExist") ⟨testFS, 0⟩
      = (false, ⟨testFS, ERROR_FILE_NOT_FOUND⟩) :=
  ⟨by decide,
   isFile_notFound testFS "SomeMadeUpFileNameThatDoesNotExist" 0 (by decide)⟩

/-- C4: invariant of every call: if this call sets LastError then the code
is non-zero and the returned boolean is `false`; a `true` result implies
this call set no error. -/
theorem isFile_invariant (fs : FS) (p : Option String) :
    (∀ c, (IsFileCall fs p).2 = some c →
      c ≠ 0 ∧ (IsFileCall fs p).1 = false) ∧
    ((IsFileCall fs p).1 = true → (IsFileCall fs p).2 = none) := by
  match p with
  | none => simp [IsFileCall, ERROR_INVALID_PARAMETER]
  | some q =>
    match h : fs q with
    | .ok t => simp [IsFileCall, h]
    | .err e =>
      refine ⟨?_, ?_⟩ <;>
        cases e <;>
          simp [IsFileCall, h, mapOSError, ERROR_FILE_NOT_FOUND,
            ERROR_ACCESS_DENIED, ERROR_GEN_FAILURE]

/-- C4 witness: the null call on the test filesystem sets the non-zero code
`ERROR_INVALID_PARAMETER` and returns `false`. -/
theorem isFile_invariant_witness :
    ERROR_INVALID_PARAMETER ≠ 0 ∧ (IsFileCall testFS none).1 = false :=
  (isFile_invariant testFS none).1 ERROR_INVALID_PARAMETER (by decide)

/-- C5: `IsFile` is total at its boundary: every input, the null path and
nonexistent paths included, produces a boolean result, and any `false`
result caused by the call comes with a non-zero LastError code, which is the
value left in the cell. -/
theorem isFile_total (fs : FS) (p : Option String) (e : Nat) :
    ((IsFileW p ⟨fs, e⟩).1 = true ∨ (IsFileW p ⟨fs, e⟩).1 = false) ∧
    ((IsFileW p ⟨fs, e⟩).1 = false →
      ∃ c, (IsFileCall fs p).2 = some c ∧ c ≠ 0 ∧
        (IsFileW p ⟨fs, e⟩).2.lastError = c) := by
  match p with
  | none => simp [IsFileW, IsFileCall, ERROR_INVALID_PARAMETER]
  | some q =>
    match h : fs q with
    | .ok t => simp [IsFileW, IsFileCall, h]
    | .err er =>
      cases er <;>
        simp [IsFileW, IsFileCall, h, mapOSError, ERROR_FILE_NOT_FOUND,
          ERROR_ACCESS_DENIED, ERROR_GEN_FAILURE]

/-- C5 witness: the null call on the test filesystem returns `false`, and a
non-zero code is set and left in the LastError cell. -/
theorem isFile_total_witness :
    (IsFileW none ⟨testFS, 0⟩).1 = false ∧
    ∃ c, (IsFileCall testFS none).2 = some c ∧ c ≠ 0 ∧
      (IsFileW none ⟨testFS, 0⟩).2.lastError = c :=
  ⟨by decide, (isFile_total testFS none 0).2 (by decide)⟩

/-- C6: every OS failure kind other than not-found (permission denied, I/O
error, name too long, any other raw error) is mapped into the stable closed
code family, and the code chosen for an unrecognised raw platform error does
not depend on the raw number, so no raw platform error number reaches the
caller. -/
theorem isFile_error_mapping (fs : FS) (p : String) (e : OSError)
    (h : fs p = .err e) (hne : e ≠ OSError.notFound) :
    (∃ c, (IsFileCall fs (some p)).2 = some c ∧ c ∈ stableCodeFamily) ∧
    (∀ n, mapOSError (.otherRaw n) = ERROR_GEN_FAILURE) := by
  refine ⟨⟨mapOSError e, ?_, ?_⟩, fun n => rfl⟩
  · simp [IsFileCall, h]
  · cases e <;> simp [mapOSError, stableCodeFamily]

/-- C6 witness: on a filesystem that denies every query, the call on some
path sets a code of the stable family, and the raw-error branch is
constant. -/
theorem isFile_error_mapping_witness :
    deniedFS "/etc/shadow" = .err .permissionDenied ∧
    ((∃ c, (IsFileCall deniedFS (some "/etc/shadow")).2 = some c ∧
        c ∈ stableCodeFamily) ∧
      (∀ n, mapOSError (.otherRaw n) = ERROR_GEN_FAILURE)) :=
  ⟨rfl,
   isFile_error_mapping deniedFS "/etc/shadow" .permissionDenied rfl
     (by decide)⟩

/-- C7: calling `IsFile` twice in succession on the same path naming an
existing regular file yields the same boolean both times, and neither call
changes the filesystem. -/
theorem isFile_idempotent (fs : FS) (p : String) (e : Nat)
    (h : fs p = .ok .regular) :
    (IsFileW (some p) ⟨fs, e⟩).1
      = (IsFileW (some p) (IsFileW (some p) ⟨fs, e⟩).2).1 ∧
    (IsFileW (some p) ⟨fs, e⟩).2.fs = fs ∧
    (IsFileW (some p) (IsFileW (some p) ⟨fs, e⟩).2).2.fs = fs := by
  simp [IsFileW, IsFileCall, h]

/-- C7 witness: `/bin/ls` is a regular file of the test filesystem; two
successive calls agree and leave the filesystem unchanged. -/
theorem isFile_idempotent_witness :
    testFS "/bin/ls" = .ok .regular ∧
    ((IsFileW (some "/bin/ls") ⟨testFS, 0⟩).1
        = (IsFileW (some "/bin/ls")
            (IsFileW (some "/bin/ls") ⟨testFS, 0⟩).2).1 ∧
      (IsFileW (some "/bin/ls") ⟨testFS, 0⟩).2.fs = testFS ∧
      (IsFileW (some "/bin/ls")
          (IsFileW (some "/bin/ls") ⟨testFS, 0⟩).2).2.fs = testFS) :=
  ⟨by decide, isFile_idempotent testFS "/bin/ls" 0 (by decide)⟩

/-- C8: frame condition: a call preserves the filesystem component of the
state, and the state after the call agrees with the state before on
everything except possibly the LastError cell -- the state carries nothing
besides the filesystem and LastError. -/
theorem isFile_frame (p : Option String) (w : World) :
    (IsFileW p w).2.fs = w.fs ∧
    (IsFileW p w).2 = ⟨w.fs, (IsFileW p w).2.lastError⟩ := by
  match p with
  | none => simp [IsFileW, IsFileCall]
  | some q =>
    unfold IsFileW IsFileCall
    match h : w.fs q with
    | .ok t => simp [h]
    | .err e => simp [h]

/-- C9 counterexample: on the test filesystem, a failing null call followed
by a true-returning call on the root leaves the earlier code in the
LastError cell: reading LastError immediately after the `true` call yields
exactly the earlier error, which is non-zero, so the earlier error is
observed as if it were current. -/
theorem isFile_stale_error_counterexample :
    (IsFileW none ⟨testFS, 0⟩).1 = false ∧
    (IsFileW none ⟨testFS, 0⟩).2.lastError = ERROR_INVALID_PARAMETER ∧
    (IsFileW (some "/") (IsFileW none ⟨testFS, 0⟩).2).1 = true ∧
    (IsFileW (some "/") (IsFileW none ⟨testFS, 0⟩).2).2.lastError
      = ERROR_INVALID_PARAMETER ∧
    ¬ ((IsFileW (some "/") (IsFileW none ⟨testFS, 0⟩).2).2.lastError = 0 ∨
        (IsFileW (some "/") (IsFileW none ⟨testFS, 0⟩).2).2.lastError
          ≠ (IsFileW none ⟨testFS, 0⟩).2.lastError) := by
  decide

/-- C9 amended: a true-returning call sets no error and leaves LastError
unchanged, so after a failing call followed by a true-returning call the
stale code is still readable; the caller tells it apart from a current error
through the boolean result: `true` means this call set no error, so
LastError is only meaningful after a `false` result. -/
theorem isFile_stale_error (fs : FS) (p q : Option String) (e : Nat)
    (h1 : (IsFileW p ⟨fs, e⟩).1 = false)
    (h2 : (IsFileW q (IsFileW p ⟨fs, e⟩).2).1 = true) :
    (IsFileCall fs q).2 = none ∧
    (IsFileW q (IsFileW p ⟨fs, e⟩).2).2.lastError
      = (IsFileW p ⟨fs, e⟩).2.lastError := by
  have hfs : (IsFileW p ⟨fs, e⟩).2.fs = fs := (isFile_frame p ⟨fs, e⟩).1
  match q with
  | none =>
    exfalso
    rw [IsFileW] at h2
    rw [hfs] at h2
    simp [IsFileCall] at h2
  | some r =>
    match h : fs r with
    | .ok t =>
      constructor
      · simp [IsFileCall, h]
      · rw [IsFileW, hfs]
        simp [IsFileCall, h]
    | .err er =>
      exfalso
      rw [IsFileW] at h2
      rw [hfs] at h2
      simp [IsFileCall, h] at h2

/-- C9 amended witness: the null call fails, the following call on the root
returns `true`, sets no error, and leaves the LastError cell unchanged. -/
theorem isFile_stale_error_witness :
    (IsFileW none ⟨testFS, 0⟩).1 = false ∧
    (IsFileW (some "/") (IsFileW none ⟨testFS, 0⟩).2).1 = true ∧
    ((IsFileCall testFS (some "/")).2 = none ∧
      (IsFileW (some "/") (IsFileW none ⟨testFS, 0⟩).2).2.lastError
        = (IsFileW none ⟨testFS, 0⟩).2.lastError) :=
  ⟨by decide, by decide,
   isFile_stale_error testFS none (some "/") 0 (by decide) (by decide)⟩

/-- C10 counterexample: the code the fake-file test expects,
`ERROR_FILE_NOT_FOUND`, is numerically the POSIX `ENOENT` value (both
equal 2): after the fake-file call the `errno` cell holds `ENOENT` as well,
so that expectation is not distinct from the POSIX value. -/
theorem errnoCodes_counterexample :
    ERROR_FILE_NOT_FOUND = ENOENT ∧
    (IsFileW (some "SomeMadeUpFileNameThatDoesNotExist")
        ⟨testFS, 0⟩).2.lastError = ENOENT := by
  decide

/-- C10 amended: the tests read the `errno` cell directly after each failing
call and compare it with the Windows-convention constants: after the
fake-file call `errno` holds `ERROR_FILE_NOT_FOUND` (2) and after the null
call `ERROR_INVALID_PARAMETER` (87); the latter differs from the POSIX
`EINVAL` value (22), while `ERROR_FILE_NOT_FOUND` numerically coincides with
the POSIX `ENOENT` value. -/
theorem errnoCodes_windows :
    (IsFileW (some "SomeMadeUpFileNameThatDoesNotExist")
        ⟨testFS, 0⟩).2.lastError = ERROR_FILE_NOT_FOUND ∧
    (IsFileW none ⟨testFS, 0⟩).2.lastError = ERROR_INVALID_PARAMETER ∧
    ERROR_INVALID_PARAMETER ≠ EINVAL ∧
    ERROR_FILE_NOT_FOUND = ENOENT := by
  decide
